import Mathlib

/-!
# Verification of the SimSmile capture-to-result orchestration pipeline

Shallow embedding of the `IALab` component (the `handleCapture` orchestration,
`optimizeImage`, `validateImageQuality`, `handleContactSubmit`, `resetApplication`
and the retry/backoff loop around the remote `simulate-smile` invocation), with
theorems settling the behavioural claims of the specification.

External collaborators (the browser canvas, the image decoder, the MediaPipe
landmark detector, the functions of `@/lib/metrics`, and the remote simulation
capability) are modelled as environment parameters: the embedding is a function
of the component state plus an environment record describing the outcomes of
those external calls during one run.
-/

namespace SimSmile

/-- The UI step of the controller: `type Step = "hero" | "capture" | "loading" | "contact" | "results"`. -/
inductive Step where
  | hero
  | capture
  | loading
  | contact
  | results
deriving DecidableEq

/-- Gingival display entry of a metrics record: `gingival: { mm, class }`.
The source field `class` is a reserved word in Lean and is rendered `cls`. -/
structure GingivalInfo where
  mm : ℚ
  cls : String
deriving DecidableEq

/-- Midline-deviation entry of a metrics record: `{ mm, side }`. -/
structure MidlineInfo where
  mm : ℚ
  side : String
deriving DecidableEq

/-- Midline-coincidence entry of a metrics record: `{ deviation, status }`. -/
structure MidlineCoincidenceInfo where
  deviation : ℚ
  status : String
deriving DecidableEq

/-- Facial-thirds entry of a metrics record:
`{ upperThird, middleThird, lowerThird, isBalanced }`. -/
structure FacialProportions where
  upperThird : ℚ
  middleThird : ℚ
  lowerThird : ℚ
  isBalanced : Bool
deriving DecidableEq

/-- The fixed-shape structured measurement record produced by the metrics stage
(the shape of `calculatedMetrics` in `handleCapture`). -/
structure MetricsRecord where
  smileArc : String
  gingival : GingivalInfo
  midline : MidlineInfo
  buccalRatio : ℚ
  facialMidline : MidlineInfo
  midlineCoincidence : MidlineCoincidenceInfo
  facialProportions : FacialProportions
deriving DecidableEq

/-- The fallback metrics literal from the `catch (landmarkError)` branch of
`handleCapture` (the object literal assigned to `calculatedMetrics` there). -/
def fallbackMetricsOnError : MetricsRecord :=
  { smileArc := "consonante"
    gingival := { mm := 1, cls := "media" }
    midline := { mm := 0, side := "centrado" }
    buccalRatio := 0.8
    facialMidline := { mm := 0, side := "centrado" }
    midlineCoincidence := { deviation := 0, status := "coincidente" }
    facialProportions :=
      { upperThird := 0.33, middleThird := 0.34, lowerThird := 0.33, isBalanced := true } }

/-- The fallback metrics literal from the `else` branch of `handleCapture`
taken when `faceLandmarkerRef.current` is null ("No landmarker available,
use basic metrics"). -/
def fallbackMetricsNoLandmarker : MetricsRecord :=
  { smileArc := "consonante"
    gingival := { mm := 1, cls := "media" }
    midline := { mm := 0, side := "centrado" }
    buccalRatio := 0.8
    facialMidline := { mm := 0, side := "centrado" }
    midlineCoincidence := { deviation := 0, status := "coincidente" }
    facialProportions :=
      { upperThird := 0.33, middleThird := 0.34, lowerThird := 0.33, isBalanced := true } }

/-- `const MAX_RETRY_ATTEMPTS = 3`. -/
def MAX_RETRY_ATTEMPTS : Nat := 3

/-- `const MAX_IMAGE_SIZE = 2048` (pixels). -/
def MAX_IMAGE_SIZE : ℚ := 2048

/-- `const IMAGE_QUALITY_THRESHOLD = 0.85`. -/
def IMAGE_QUALITY_THRESHOLD : ℚ := 0.85

/-- Outcome of decoding the input of `optimizeImage` in an `Image` element:
either `img.onerror` fired, or `img.onload` fired with the decoded dimensions. -/
inductive DecodeOutcome where
  | failure
  | success (width height : ℚ)
deriving DecidableEq

/-- Environment of one `optimizeImage` call: the decode outcome of its input,
whether `canvas.getContext('2d')` returns a context, and the external
`canvas.toDataURL('image/jpeg', quality)` encoder (a function of the canvas
width, canvas height and quality argument). -/
structure CanvasEnv where
  decode : DecodeOutcome
  ctxAvailable : Bool
  encode : ℚ → ℚ → ℚ → String

/-- `optimizeImage(base64)`. The promise executor only ever calls `resolve`
(`reject` is not even bound), so the translation returns `Except.ok` on every
path and has no `Except.error` site: `img.onerror` resolves with the input
unchanged, a missing 2d context resolves with the input unchanged, and
otherwise the image is resized so neither dimension exceeds `MAX_IMAGE_SIZE`
(preserving aspect ratio) and re-encoded at `IMAGE_QUALITY_THRESHOLD`. -/
def optimizeImage (c : CanvasEnv) (base64 : String) : Except String String :=
  match c.decode with
  | DecodeOutcome.failure => Except.ok base64
  | DecodeOutcome.success w h =>
    if c.ctxAvailable = false then Except.ok base64
    else
      let p :=
        if w > MAX_IMAGE_SIZE ∨ h > MAX_IMAGE_SIZE then
          (w * min (MAX_IMAGE_SIZE / w) (MAX_IMAGE_SIZE / h),
           h * min (MAX_IMAGE_SIZE / w) (MAX_IMAGE_SIZE / h))
        else (w, h)
      Except.ok (c.encode p.1 p.2 IMAGE_QUALITY_THRESHOLD)

/-- User-visible notices (`toast` calls) relevant to the pipeline contract. -/
inductive Notice where
  | reentrancyWarning
  | lowResolutionWarning
  | aspectRatioWarning
  | simulationUnavailableInfo
  | errorRetry
  | terminalFailure
deriving DecidableEq

/-- `validateImageQuality(image)`: advisory check returning the validity flag
and the warning toasts it emits.  An image below the minimum resolution warns
and returns `false` (skipping the aspect check); an extreme aspect ratio warns
but still returns `true`. -/
def validateImageQuality (width height : ℚ) : Bool × List Notice :=
  if width < 640 ∨ height < 480 then (false, [Notice.lowResolutionWarning])
  else if width / height < 0.5 ∨ width / height > 2 then (true, [Notice.aspectRatioWarning])
  else (true, [])

/-- The `simulate-smile` success payload shape
`{simulatedImage?, idealImage?, facialAnalysis?, qualityScore?, warnings?}`;
absent fields are `none`.  `facialAnalysis` is opaque to the pipeline and
modelled as a string. -/
structure SimResponse where
  simulatedImage : Option String
  idealImage : Option String
  facialAnalysis : Option String
  qualityScore : Option ℚ
  warnings : Option (List String)
deriving DecidableEq

/-- The `{ data, error }` value returned by `supabase.functions.invoke`
when the call itself does not throw; `data` is null (`none`) or a payload,
`error` is null (`none`) or an error value. -/
structure InvokeReturn where
  data : Option SimResponse
  error : Option String
deriving DecidableEq

/-- Outcome of one attempt of the retry loop: either the awaited invocation
itself rejected (network failure, aborted signal, ...), or it returned a
`{ data, error }` value. -/
inductive AttemptOutcome where
  | exn
  | ret (r : InvokeReturn)
deriving DecidableEq

/-- Result of the retry loop: the final value of `simulationResult`, how many
loop iterations started an invocation, and the backoff delays (ms) awaited
between attempts, in order. -/
structure SimLoopResult where
  simulationResult : Option SimResponse
  attemptsStarted : Nat
  waits : List Nat
deriving DecidableEq

/-- One step of the loop body, lines 350-375 of the component:
```
try {
  const { data, error } = await supabase.functions.invoke(...);
  if (error) throw error;
  if (data) { simulationResult = data; break; }
} catch (err) {
  lastError = err;
  if (attempt < MAX_RETRY_ATTEMPTS - 1) {
    await new Promise(resolve => setTimeout(resolve, 1000 * (attempt + 1)));
  }
}
```
`remaining` is the number of loop iterations the `attempt < MAX_RETRY_ATTEMPTS`
guard still allows. -/
def simLoopAux (oc : Nat → AttemptOutcome) : Nat → Nat → List Nat → SimLoopResult
  | 0, attempt, waits => { simulationResult := none, attemptsStarted := attempt, waits := waits }
  | remaining + 1, attempt, waits =>
    match oc attempt with
    | AttemptOutcome.ret r =>
      if r.error.isSome then
        -- `if (error) throw error` lands in the catch: backoff unless last attempt
        simLoopAux oc remaining (attempt + 1)
          (waits ++ if attempt < MAX_RETRY_ATTEMPTS - 1 then [1000 * (attempt + 1)] else [])
      else
        match r.data with
        | some d => { simulationResult := some d, attemptsStarted := attempt + 1, waits := waits }
        | none =>
          -- error and data both null: the try block just ends, no wait, next attempt
          simLoopAux oc remaining (attempt + 1) waits
    | AttemptOutcome.exn =>
      simLoopAux oc remaining (attempt + 1)
        (waits ++ if attempt < MAX_RETRY_ATTEMPTS - 1 then [1000 * (attempt + 1)] else [])

/-- The retry loop `for (let attempt = 0; attempt < MAX_RETRY_ATTEMPTS; attempt++)`
around the `simulate-smile` invocation, applied to the per-attempt outcomes. -/
def simLoop (oc : Nat → AttemptOutcome) : SimLoopResult :=
  simLoopAux oc MAX_RETRY_ATTEMPTS 0 []

/-- Whether an attempt outcome makes the loop `break` with a result:
error absent and `data` non-null (returning that data). -/
def attemptBreaks : AttemptOutcome → Option SimResponse
  | AttemptOutcome.exn => none
  | AttemptOutcome.ret r => if r.error.isSome then none else r.data

/-- The backoff delay list appended after a given attempt when its outcome
lands in the catch block (empty after the last attempt). -/
def backoff (attempt : Nat) : List Nat :=
  if attempt < MAX_RETRY_ATTEMPTS - 1 then [1000 * (attempt + 1)] else []

/-- The delay awaited after one attempt: the backoff when the attempt lands in
the catch block (a thrown invocation or an error result), nothing otherwise. -/
def stepWait (o : AttemptOutcome) (attempt : Nat) : List Nat :=
  match o with
  | AttemptOutcome.exn => backoff attempt
  | AttemptOutcome.ret r => if r.error.isSome then backoff attempt else []

/-- Whether an attempt lands in the catch block (throwing outcome). -/
def attemptThrows : AttemptOutcome → Bool
  | AttemptOutcome.exn => true
  | AttemptOutcome.ret r => r.error.isSome

/-- The first attempt result (among the three allowed attempts) on which the
loop breaks, if any. -/
def firstBreak (oc : Nat → AttemptOutcome) : Option SimResponse :=
  match attemptBreaks (oc 0) with
  | some d => some d
  | none =>
    match attemptBreaks (oc 1) with
    | some d => some d
    | none => attemptBreaks (oc 2)

/-- JavaScript truthiness of the optional string `simulationResult?.simulatedImage`:
the usable simulated image, if any.  A null result, an absent field and an
empty string are all falsy. -/
def usableImage : Option SimResponse → Option String
  | some r =>
    match r.simulatedImage with
    | some simg => if simg = "" then none else some simg
    | none => none
  | none => none

/-- The effective per-attempt outcomes once an abort signal is taken into
account: an invocation handed an already-aborted signal rejects immediately
(an `AbortError`), so an attempt begun after the token fired throws. -/
def withToken (tokenFired : Nat → Bool) (oc : Nat → AttemptOutcome) : Nat → AttemptOutcome :=
  fun i => if tokenFired i then AttemptOutcome.exn else oc i

/-- A single facial landmark with normalized coordinates. -/
structure Landmark where
  x : ℚ
  y : ℚ
  z : ℚ
deriving DecidableEq

/-- Outcome of the landmark/metrics stage when a landmarker handle exists:
either the inner `try` threw (`detect` failed, no face found in one of the
images, or `computeMetrics` threw) — carrying the value the local
`smileLandmarks` had at the point of the throw — or it completed with the two
landmark lists and the record `computeMetrics` returned.  `computeMetrics`
itself lives in `@/lib/metrics` (outside the analysed sources); its result is
therefore part of the environment. -/
inductive DetectStage where
  | failed (assignedSmileLm : Option (List Landmark))
  | ok (smileLm : List Landmark) (restLm : List Landmark) (metrics : MetricsRecord)

/-- The `simulationData` state shape `{facialAnalysis?, qualityScore?, warnings?}`. -/
structure SimulationData where
  facialAnalysis : Option String
  qualityScore : Option ℚ
  warnings : Option (List String)
deriving DecidableEq

/-- The contact record `{email, name?, phone?}`. -/
structure ContactData where
  email : String
  name : Option String
  phone : Option String
deriving DecidableEq

/-- The component state: one field per `useState` hook of `IALab`. -/
structure RunState where
  step : Step
  restImage : String
  smileImage : String
  idealImage : String
  analysis : String
  metrics : Option MetricsRecord
  landmarks : Option (List Landmark)
  contactData : Option ContactData
  simulationData : Option SimulationData
  isProcessing : Bool
  retryCount : Nat
deriving DecidableEq

/-- The initial hook values of `IALab`. -/
def initialState : RunState :=
  { step := Step.hero
    restImage := ""
    smileImage := ""
    idealImage := ""
    analysis := ""
    metrics := none
    landmarks := none
    contactData := none
    simulationData := none
    isProcessing := false
    retryCount := 0 }

/-- Environment of one `handleCapture` run: outcomes of every external call it
performs.  `optRest`/`optSmile` drive the two `optimizeImage` calls;
`restDims`/`smileDims` are the dimensions with which the two analysis `Image`
elements load (`none` when `img.onerror` fires, which rejects the awaited
`Promise.all` and aborts the run); `landmarkerAvailable` is whether
`faceLandmarkerRef.current` is non-null; `detection` is the outcome of the
landmark/metrics stage; the three functions model
`analyzeFaceCharacteristics`, `generateSmileRecommendations` and
`generateAnalysisText` imported from `@/lib/metrics` (outside the analysed
sources, opaque to every claim); `simOutcomes` are the per-attempt outcomes of
the `simulate-smile` invocations. -/
structure Env where
  optRest : CanvasEnv
  optSmile : CanvasEnv
  restDims : Option (ℚ × ℚ)
  smileDims : Option (ℚ × ℚ)
  landmarkerAvailable : Bool
  detection : DetectStage
  analyzeFaceCharacteristics : MetricsRecord → String
  generateSmileRecommendations : String → MetricsRecord → String
  generateAnalysisText : String → MetricsRecord → String → String
  simOutcomes : Nat → AttemptOutcome

/-- Loading an analysis `Image` element: `onload` resolves with the element,
`onerror` rejects (the rejection propagates out of `Promise.all` into the
outer catch). -/
def loadDims : Option (ℚ × ℚ) → Except String (ℚ × ℚ)
  | some d => Except.ok d
  | none => Except.error "image load error"

/-- The landmark/metrics stage of `handleCapture` (lines 275-335): with a
landmarker handle, a successful inner `try` yields the detected smile
landmarks and the computed record, and a throw is caught and replaced by the
fallback literal; without a handle the fallback literal is used directly. -/
def landmarkStage (env : Env) : Option (List Landmark) × MetricsRecord :=
  if env.landmarkerAvailable then
    match env.detection with
    | DetectStage.ok smileLm _ m => (some smileLm, m)
    | DetectStage.failed assigned => (assigned, fallbackMetricsOnError)
  else
    (none, fallbackMetricsNoLandmarker)

/-- `simulationResult.idealImage || simulationResult.simulatedImage` under
JavaScript truthiness, given the (truthy) simulated image string. -/
def jsOr (a : Option String) (b : String) : String :=
  match a with
  | some s => if s = "" then b else s
  | none => b

/-- The "simulation failed, using original image" branch of the
result-processing step: `toast.info`, `setIdealImage(optimizedSmile)`,
`setSimulationData({ warnings: ['simulation_unavailable'] })`. -/
def simUnavailable (s1 : RunState) (optimizedSmile : String) : RunState × List Notice :=
  ({ s1 with
      idealImage := optimizedSmile
      simulationData :=
        some { facialAnalysis := none, qualityScore := none,
               warnings := some ["simulation_unavailable"] } },
   [Notice.simulationUnavailableInfo])

/-- Processing of the simulation result (lines 380-400):
`if (simulationResult?.simulatedImage) { ...success... } else { ...fallback... }`. -/
def postSim (s1 : RunState) (optimizedSmile : String) (result : Option SimResponse) :
    RunState × List Notice :=
  match result with
  | some resp =>
    match resp.simulatedImage with
    | some simg =>
      if simg = "" then simUnavailable s1 optimizedSmile
      else
        ({ s1 with
            smileImage := simg
            idealImage := jsOr resp.idealImage simg
            simulationData :=
              some { facialAnalysis := resp.facialAnalysis,
                     qualityScore := resp.qualityScore,
                     warnings := resp.warnings } },
         [])
    | none => simUnavailable s1 optimizedSmile
  | none => simUnavailable s1 optimizedSmile

/-- The `try` block of `handleCapture` applied to the state after the
in-flight flag and images were set: optimize both images, construct the two
analysis image elements (a load failure rejects and is the only fatal throw of
the block), validate quality (advisory), run the landmark/metrics stage,
derive the analysis text, run the simulation retry loop, process its result,
and commit analysis/metrics/landmarks and the `contact` step. -/
def handleCaptureTry (env : Env) (s1 : RunState) (rest smile : String) :
    Except String (RunState × List Notice) := do
  let _optimizedRest ← optimizeImage env.optRest rest
  let optimizedSmile ← optimizeImage env.optSmile smile
  let smileWH ← loadDims env.smileDims
  let restWH ← loadDims env.restDims
  let smileCheck := validateImageQuality smileWH.1 smileWH.2
  let restCheck := validateImageQuality restWH.1 restWH.2
  let stage := landmarkStage env
  let faceAnalysis := env.analyzeFaceCharacteristics stage.2
  let recommendations := env.generateSmileRecommendations faceAnalysis stage.2
  let analysisText := env.generateAnalysisText faceAnalysis stage.2 recommendations
  let loopRes := simLoop env.simOutcomes
  let afterSim := postSim s1 optimizedSmile loopRes.simulationResult
  let s3 :=
    { afterSim.1 with
        analysis := analysisText
        metrics := some stage.2
        landmarks := stage.1
        step := Step.contact }
  Except.ok (s3, smileCheck.2 ++ restCheck.2 ++ afterSim.2)

/-- The state right after the eager writes at the head of `handleCapture`:
`setIsProcessing(true); setRestImage(rest); setSmileImage(smile); setStep("loading")`. -/
def startState (s : RunState) (rest smile : String) : RunState :=
  { s with
      isProcessing := true
      restImage := rest
      smileImage := smile
      step := Step.loading }

/-- One invocation of a `handleCapture` closure.  `handleCapture` is a
`useCallback` closure of a function component: the `isProcessing` and
`retryCount` it reads (the reentrancy guard at the top and the retry-cap
check in the catch) are the consts frozen in the render that created the
closure, NOT the current committed state — they are therefore explicit
parameters here.  The `setX` writes go to the committed state `s`.  The body
is: the reentrancy guard, the eager state writes (`setIsProcessing(true)`,
both source images, the `loading` step), the `try` block, the catch branch
(a retry toast while the captured `retryCount < MAX_RETRY_ATTEMPTS - 1`, a
terminal failure toast otherwise, and a return to the `capture` step), and
the `finally` clearing the in-flight flag. -/
def handleCaptureWith (env : Env) (capturedIsProcessing : Bool) (capturedRetryCount : Nat)
    (s : RunState) (rest smile : String) : RunState × List Notice :=
  if capturedIsProcessing then
    (s, [Notice.reentrancyWarning])
  else
    let s1 := startState s rest smile
    match handleCaptureTry env s1 rest smile with
    | Except.ok (s2, notices) => ({ s2 with isProcessing := false }, notices)
    | Except.error _ =>
      ({ s1 with step := Step.capture, isProcessing := false },
       if capturedRetryCount < MAX_RETRY_ATTEMPTS - 1 then [Notice.errorRetry]
       else [Notice.terminalFailure])

/-- A fresh submission of a photo pair from the capture UI: the UI holds the
closure of the latest render, whose captured `isProcessing` and `retryCount`
equal the current committed state's values. -/
def handleCapture (env : Env) (s : RunState) (rest smile : String) :
    RunState × List Notice :=
  handleCaptureWith env s.isProcessing s.retryCount s rest smile

/-- The `onClick` action of the retry toast:
`setRetryCount(prev => prev + 1); handleCapture(rest, smile);`.
The functional update advances the committed counter, but the
`handleCapture` it then calls is the closure of the render that created the
toast's chain — the one invoked at the original submission (its body
self-references the same `useCallback` value).  That closure's captured
`isProcessing` is `false` (the submission passed the guard) and its captured
`retryCount` is the pre-increment value frozen at submission time
(`capturedRetryCount`); the increments made by the clicks are never seen by
the reruns of the chain. -/
def clickRetry (env : Env) (capturedRetryCount : Nat) (s : RunState) (rest smile : String) :
    RunState × List Notice :=
  handleCaptureWith env false capturedRetryCount
    { s with retryCount := s.retryCount + 1 } rest smile

/-- `handleContactSubmit(data)`: attach the contact data and move to results. -/
def handleContactSubmit (s : RunState) (d : ContactData) : RunState :=
  { s with contactData := some d, step := Step.results }

/-- `resetApplication()`: reset every hook it touches to its initial value
(the in-flight flag is not among them). -/
def resetApplication (s : RunState) : RunState :=
  { s with
      step := Step.hero
      restImage := ""
      smileImage := ""
      idealImage := ""
      analysis := ""
      metrics := none
      landmarks := none
      contactData := none
      simulationData := none
      retryCount := 0 }

/-- A canvas environment whose decode succeeds at 800x600 with a context. -/
def baseCanvas : CanvasEnv :=
  { decode := DecodeOutcome.success 800 600
    ctxAvailable := true
    encode := fun _ _ _ => "enc" }

/-- A concrete environment used to instantiate theorems: images decode and
load at 800x600, no landmarker handle, and every simulation attempt throws. -/
def baseEnv : Env :=
  { optRest := baseCanvas
    optSmile := baseCanvas
    restDims := some (800, 600)
    smileDims := some (800, 600)
    landmarkerAvailable := false
    detection := DetectStage.failed none
    analyzeFaceCharacteristics := fun _ => "fa"
    generateSmileRecommendations := fun _ _ => "rec"
    generateAnalysisText := fun _ _ _ => "texto"
    simOutcomes := fun _ => AttemptOutcome.exn }

/-- A success response carrying no fields at all: `data` is a non-null object
with neither `simulatedImage` nor any other field. -/
def emptyPayload : SimResponse :=
  { simulatedImage := none, idealImage := none, facialAnalysis := none,
    qualityScore := none, warnings := none }

/-- Every attempt returns `{ data: {}, error: null }`: a non-null response
object with no usable payload. -/
def emptyPayloadOutcome : Nat → AttemptOutcome := fun _ =>
  AttemptOutcome.ret { data := some emptyPayload, error := none }

/-- Every attempt returns `{ data: null, error: null }`: the invocation
resolves but carries neither data nor an error. -/
def nullDataOutcome : Nat → AttemptOutcome := fun _ =>
  AttemptOutcome.ret { data := none, error := none }

/-- A cancellation token that fires after the first attempt has begun
(it is already triggered when attempts 1 and 2 would start). -/
def tokenFiredAfterFirst : Nat → Bool := fun i => decide (1 ≤ i)

/-- A success payload with a simulated image and no `idealImage` field. -/
def successPayload : SimResponse :=
  { simulatedImage := some "sim", idealImage := none, facialAnalysis := none,
    qualityScore := none, warnings := some ["w1"] }

/-- An environment whose first simulation attempt succeeds with
`successPayload`. -/
def successEnv : Env :=
  { baseEnv with
      simOutcomes := fun _ => AttemptOutcome.ret { data := some successPayload, error := none } }

/-- An environment in which the smiling analysis image fails to load
(a fatal run). -/
def fatalEnv : Env :=
  { baseEnv with smileDims := none }

/-! ## Helper lemmas about the simulation retry loop -/

theorem simLoop_unfold (oc : Nat → AttemptOutcome) : simLoop oc = simLoopAux oc 3 0 [] := rfl

theorem simLoopAux_succ (oc : Nat → AttemptOutcome) (n a : Nat) (w : List Nat) :
    simLoopAux oc (n + 1) a w =
      match attemptBreaks (oc a) with
      | some d => { simulationResult := some d, attemptsStarted := a + 1, waits := w }
      | none => simLoopAux oc n (a + 1) (w ++ stepWait (oc a) a) := by
  rcases h : oc a with _ | ⟨d, e⟩
  · simp [simLoopAux, h, attemptBreaks, stepWait, backoff]
  · cases e <;> cases d <;> simp [simLoopAux, h, attemptBreaks, stepWait, backoff]

theorem simLoopAux_three (oc : Nat → AttemptOutcome) (a : Nat) (w : List Nat) :
    simLoopAux oc 3 a w =
      match attemptBreaks (oc a) with
      | some d => { simulationResult := some d, attemptsStarted := a + 1, waits := w }
      | none => simLoopAux oc 2 (a + 1) (w ++ stepWait (oc a) a) :=
  simLoopAux_succ oc 2 a w

theorem simLoopAux_two (oc : Nat → AttemptOutcome) (a : Nat) (w : List Nat) :
    simLoopAux oc 2 a w =
      match attemptBreaks (oc a) with
      | some d => { simulationResult := some d, attemptsStarted := a + 1, waits := w }
      | none => simLoopAux oc 1 (a + 1) (w ++ stepWait (oc a) a) :=
  simLoopAux_succ oc 1 a w

theorem simLoopAux_one (oc : Nat → AttemptOutcome) (a : Nat) (w : List Nat) :
    simLoopAux oc 1 a w =
      match attemptBreaks (oc a) with
      | some d => { simulationResult := some d, attemptsStarted := a + 1, waits := w }
      | none => simLoopAux oc 0 (a + 1) (w ++ stepWait (oc a) a) :=
  simLoopAux_succ oc 0 a w

theorem simLoopAux_zero (oc : Nat → AttemptOutcome) (a : Nat) (w : List Nat) :
    simLoopAux oc 0 a w =
      { simulationResult := none, attemptsStarted := a, waits := w } := rfl

/-- The loop result is the first breaking attempt among the three allowed ones. -/
theorem simLoop_result (oc : Nat → AttemptOutcome) :
    (simLoop oc).simulationResult = firstBreak oc := by
  rw [simLoop_unfold, simLoopAux_three]
  cases h0 : attemptBreaks (oc 0) with
  | some d => simp [firstBreak, h0]
  | none =>
    simp only [h0, simLoopAux_two]
    cases h1 : attemptBreaks (oc 1) with
    | some d => simp [firstBreak, h0, h1]
    | none =>
      simp only [h1, simLoopAux_one]
      cases h2 : attemptBreaks (oc 2) with
      | some d => simp [firstBreak, h0, h1, h2]
      | none => simp [firstBreak, h0, h1, h2, simLoopAux_zero]

/-- When no attempt breaks, the loop exhausts its three attempts with no result. -/
theorem simLoop_exhausted (oc : Nat → AttemptOutcome)
    (h : ∀ i, i < MAX_RETRY_ATTEMPTS → attemptBreaks (oc i) = none) :
    (simLoop oc).simulationResult = none ∧ (simLoop oc).attemptsStarted = MAX_RETRY_ATTEMPTS := by
  have h0 := h 0 (by decide)
  have h1 := h 1 (by decide)
  have h2 := h 2 (by decide)
  rw [simLoop_unfold, simLoopAux_three]
  simp [h0, simLoopAux_two, h1, simLoopAux_one, h2, simLoopAux_zero, MAX_RETRY_ATTEMPTS]

theorem attemptThrows_breaks {o : AttemptOutcome} (h : attemptThrows o = true) :
    attemptBreaks o = none := by
  cases o with
  | exn => rfl
  | ret r =>
    simp only [attemptThrows] at h
    simp [attemptBreaks, h]

theorem attemptThrows_wait {o : AttemptOutcome} (a : Nat) (h : attemptThrows o = true) :
    stepWait o a = backoff a := by
  cases o with
  | exn => rfl
  | ret r =>
    simp only [attemptThrows] at h
    simp [stepWait, h]

/-- A run whose three attempts all land in the catch block makes all three
attempts, returns no result, and sleeps exactly the 1s and 2s backoffs. -/
theorem simLoop_allThrow (oc : Nat → AttemptOutcome)
    (h : ∀ i, i < MAX_RETRY_ATTEMPTS → attemptThrows (oc i) = true) :
    simLoop oc =
      { simulationResult := none, attemptsStarted := 3, waits := [1000, 2000] } := by
  have h0 := h 0 (by decide)
  have h1 := h 1 (by decide)
  have h2 := h 2 (by decide)
  rw [simLoop_unfold, simLoopAux_three]
  simp only [attemptThrows_breaks h0, attemptThrows_wait 0 h0, simLoopAux_two,
    attemptThrows_breaks h1, attemptThrows_wait 1 h1, simLoopAux_one,
    attemptThrows_breaks h2, attemptThrows_wait 2 h2, simLoopAux_zero]
  simp [backoff, MAX_RETRY_ATTEMPTS]

/-! ## Helper lemmas about `optimizeImage` and `handleCapture` -/

/-- The `optimizeImage` promise settles with `resolve` on every path. -/
theorem optimizeImage_ok (c : CanvasEnv) (b : String) :
    ∃ v, optimizeImage c b = Except.ok v := by
  rcases hd : c.decode with _ | ⟨w, h⟩ <;> by_cases hc : c.ctxAvailable = false <;>
    simp [optimizeImage, hd, hc]

/-- `handleCapture` past the reentrancy guard is the `try`/`catch`/`finally`
applied to the eagerly updated state. -/
theorem handleCapture_eq (env : Env) (s : RunState) (rest smile : String)
    (hp : s.isProcessing = false) :
    handleCapture env s rest smile =
      match handleCaptureTry env (startState s rest smile) rest smile with
      | Except.ok (s2, notices) => ({ s2 with isProcessing := false }, notices)
      | Except.error _ =>
        ({ startState s rest smile with step := Step.capture, isProcessing := false },
         if s.retryCount < MAX_RETRY_ATTEMPTS - 1 then [Notice.errorRetry]
         else [Notice.terminalFailure]) := by
  simp [handleCapture, handleCaptureWith, hp]

/-- A run on which an analysis image element fails to load throws out of the
`try` block. -/
theorem handleCaptureTry_fatal (env : Env) (s1 : RunState) (rest smile : String)
    (hf : env.smileDims = none ∨ env.restDims = none) :
    handleCaptureTry env s1 rest smile = Except.error "image load error" := by
  obtain ⟨orv, hor⟩ := optimizeImage_ok env.optRest rest
  obtain ⟨osv, hos⟩ := optimizeImage_ok env.optSmile smile
  rcases hf with hf | hf
  · simp only [handleCaptureTry, hor, hos, hf]
    rfl
  · rcases hsd : env.smileDims with _ | d
    · simp only [handleCaptureTry, hor, hos, hsd]
      rfl
    · simp only [handleCaptureTry, hor, hos, hsd, hf]
      rfl

/-- Symbolic execution of `handleCapture` on a fatal run (an analysis image
element failed to load): the new source images are kept, the controller
returns to the capture step, the in-flight flag is cleared, and a retry or
terminal notice is emitted according to the retry counter. -/
theorem handleCapture_fatal (env : Env) (s : RunState) (rest smile : String)
    (hp : s.isProcessing = false)
    (hf : env.smileDims = none ∨ env.restDims = none) :
    handleCapture env s rest smile =
      ({ s with restImage := rest, smileImage := smile,
                step := Step.capture, isProcessing := false },
       if s.retryCount < MAX_RETRY_ATTEMPTS - 1 then [Notice.errorRetry]
       else [Notice.terminalFailure]) := by
  rw [handleCapture_eq env s rest smile hp, handleCaptureTry_fatal env _ rest smile hf]
  simp [startState]

/-- Symbolic execution of one invocation of a captured `handleCapture`
closure on a fatal run: the catch decision reads the captured counter, the
state writes go to the committed state. -/
theorem handleCaptureWith_fatal (env : Env) (rc : Nat) (s : RunState) (rest smile : String)
    (hf : env.smileDims = none ∨ env.restDims = none) :
    handleCaptureWith env false rc s rest smile =
      ({ s with restImage := rest, smileImage := smile,
                step := Step.capture, isProcessing := false },
       if rc < MAX_RETRY_ATTEMPTS - 1 then [Notice.errorRetry]
       else [Notice.terminalFailure]) := by
  have hTry := handleCaptureTry_fatal env (startState s rest smile) rest smile hf
  simp only [handleCaptureWith, hTry]
  simp [startState]

/-- Symbolic execution of the `try` block on a non-fatal run (both analysis
image elements load): it completes through the landmark stage, the simulation
loop and the result processing, and commits the contact step. -/
theorem handleCaptureTry_done (env : Env) (s1 : RunState) (rest smile osm : String)
    (sw sh rw rh : ℚ)
    (hos : optimizeImage env.optSmile smile = Except.ok osm)
    (hsd : env.smileDims = some (sw, sh))
    (hrd : env.restDims = some (rw, rh)) :
    handleCaptureTry env s1 rest smile =
      Except.ok
        ({ (postSim s1 osm (simLoop env.simOutcomes).simulationResult).1 with
            analysis := env.generateAnalysisText
              (env.analyzeFaceCharacteristics (landmarkStage env).2) (landmarkStage env).2
              (env.generateSmileRecommendations
                (env.analyzeFaceCharacteristics (landmarkStage env).2) (landmarkStage env).2)
            metrics := some (landmarkStage env).2
            landmarks := (landmarkStage env).1
            step := Step.contact },
         (validateImageQuality sw sh).2 ++ (validateImageQuality rw rh).2 ++
           (postSim s1 osm (simLoop env.simOutcomes).simulationResult).2) := by
  obtain ⟨orv, hor⟩ := optimizeImage_ok env.optRest rest
  simp only [handleCaptureTry, hor, hos, hsd, hrd]
  rfl

/-- The result-processing step never touches the retry counter. -/
theorem postSim_retryCount (s1 : RunState) (osm : String) (r : Option SimResponse) :
    (postSim s1 osm r).1.retryCount = s1.retryCount := by
  rcases r with _ | resp
  · simp [postSim, simUnavailable]
  · rcases hsi : resp.simulatedImage with _ | simg
    · simp [postSim, simUnavailable, hsi]
    · by_cases he : simg = "" <;> simp [postSim, simUnavailable, hsi, he]

/-- A completed `try` block never touches the retry counter. -/
theorem handleCaptureTry_retryCount (env : Env) (s1 : RunState) (rest smile : String)
    (t : RunState) (ns : List Notice)
    (hT : handleCaptureTry env s1 rest smile = Except.ok (t, ns)) :
    t.retryCount = s1.retryCount := by
  rcases hsd : env.smileDims with _ | ⟨sw, sh⟩
  · rw [handleCaptureTry_fatal env s1 rest smile (Or.inl hsd)] at hT
    exact absurd hT (by simp)
  · rcases hrd : env.restDims with _ | ⟨rwv, rhv⟩
    · rw [handleCaptureTry_fatal env s1 rest smile (Or.inr hrd)] at hT
      exact absurd hT (by simp)
    · obtain ⟨osm, hos⟩ := optimizeImage_ok env.optSmile smile
      rw [handleCaptureTry_done env s1 rest smile osm sw sh rwv rhv hos hsd hrd] at hT
      simp only [Except.ok.injEq, Prod.mk.injEq] at hT
      rw [← hT.1]
      exact postSim_retryCount s1 osm (simLoop env.simOutcomes).simulationResult

/-- `handleCapture` itself never changes the retry counter (on the guarded,
the completed and the failed path alike). -/
theorem handleCapture_retryCount (env : Env) (s : RunState) (rest smile : String) :
    ((handleCapture env s rest smile).1).retryCount = s.retryCount := by
  by_cases hp : s.isProcessing
  · simp [handleCapture, handleCaptureWith, hp]
  · have hp' : s.isProcessing = false := by simpa using hp
    rw [handleCapture_eq env s rest smile hp']
    rcases hT : handleCaptureTry env (startState s rest smile) rest smile with e | ⟨t, ns⟩
    · simp [startState]
    · have := handleCaptureTry_retryCount env (startState s rest smile) rest smile t ns hT
      simp [this, startState]

/-- The rerun of a captured closure never changes the retry counter of the
state it runs on. -/
theorem handleCaptureWith_retryCount (env : Env) (rc : Nat) (s : RunState)
    (rest smile : String) :
    ((handleCaptureWith env false rc s rest smile).1).retryCount = s.retryCount := by
  rcases hT : handleCaptureTry env (startState s rest smile) rest smile with e | ⟨t, ns⟩
  · simp only [handleCaptureWith, hT]
    simp [startState]
  · have ht := handleCaptureTry_retryCount env (startState s rest smile) rest smile t ns hT
    simp only [handleCaptureWith, hT]
    simp [ht, startState]

/-- One click of the retry affordance on a fatal environment: the committed
counter is incremented, and another fatal run is executed whose retry/terminal
decision reads the counter captured at the original submission. -/
theorem clickRetry_fatal (env : Env) (rc : Nat) (t : RunState) (rest smile : String)
    (hf : env.smileDims = none ∨ env.restDims = none) :
    clickRetry env rc t rest smile =
      ({ t with restImage := rest, smileImage := smile, step := Step.capture,
                isProcessing := false, retryCount := t.retryCount + 1 },
       if rc < MAX_RETRY_ATTEMPTS - 1 then [Notice.errorRetry]
       else [Notice.terminalFailure]) := by
  unfold clickRetry
  rw [handleCaptureWith_fatal env rc { t with retryCount := t.retryCount + 1 } rest smile hf]

/-! ## Claim theorems -/

/-- C1, counterexample: a run whose first attempt returns `{ data: {}, error: null }`
— a response with NO usable simulated-image field — ends the retry loop at
once as a terminal result (one attempt started, no further attempts), even
though its payload is unusable; the claim says such a response should make
the loop continue to the next attempt. -/
theorem c1_counterexample :
    (simLoop emptyPayloadOutcome).simulationResult = some emptyPayload ∧
    usableImage (simLoop emptyPayloadOutcome).simulationResult = none ∧
    (simLoop emptyPayloadOutcome).attemptsStarted = 1 := by
  decide

/-- C1 (amended): the retry loop is exited with a result exactly at the first
attempt whose invocation returns without error and with a non-null `data`
object — regardless of whether that object contains a non-empty
simulated-image field, which is only checked after the loop.  Responses that
arrive with a null `data` (and errors/exceptions) continue the loop, and if
no attempt returns a non-null error-free `data`, all three attempts are made. -/
theorem c1_loop_breaks_on_any_data (oc : Nat → AttemptOutcome) :
    (simLoop oc).simulationResult = firstBreak oc ∧
    (∀ d, attemptBreaks (oc 0) = some d →
      simLoop oc = { simulationResult := some d, attemptsStarted := 1, waits := [] }) ∧
    (firstBreak oc = none → (simLoop oc).attemptsStarted = MAX_RETRY_ATTEMPTS) := by
  refine ⟨simLoop_result oc, ?_, ?_⟩
  · intro d hd
    rw [simLoop_unfold, simLoopAux_three, hd]
  · intro hfb
    have h0 : attemptBreaks (oc 0) = none := by
      cases h : attemptBreaks (oc 0) with
      | none => rfl
      | some d => simp [firstBreak, h] at hfb
    have h1 : attemptBreaks (oc 1) = none := by
      cases h : attemptBreaks (oc 1) with
      | none => rfl
      | some d => simp [firstBreak, h0, h] at hfb
    have h2 : attemptBreaks (oc 2) = none := by
      cases h : attemptBreaks (oc 2) with
      | none => rfl
      | some d => simp [firstBreak, h0, h1, h] at hfb
    refine (simLoop_exhausted oc ?_).2
    intro i hi
    have hi3 : i < 3 := hi
    interval_cases i <;> assumption

/-- C1 witness: the amended theorem evaluated on the run whose first attempt
returns a non-null but unusable payload. -/
theorem c1_witness :
    (simLoop emptyPayloadOutcome).simulationResult = firstBreak emptyPayloadOutcome ∧
    simLoop emptyPayloadOutcome =
      { simulationResult := some emptyPayload, attemptsStarted := 1, waits := [] } := by
  obtain ⟨ha, hb, _⟩ := c1_loop_breaks_on_any_data emptyPayloadOutcome
  exact ⟨ha, hb emptyPayload (by decide)⟩

/-- C3, counterexample: a run whose three attempts all fail by returning
`{ data: null, error: null }` fails all three attempts yet spends NO time in
backoff delays — the claim says every run failing all 3 attempts spends
exactly 1s + 2s in backoff. -/
theorem c3_counterexample :
    (simLoop nullDataOutcome).simulationResult = none ∧
    (simLoop nullDataOutcome).attemptsStarted = MAX_RETRY_ATTEMPTS ∧
    (simLoop nullDataOutcome).waits = [] := by
  decide

/-- C3 (amended): the backoff delay of `(attempt_index) * 1s` is awaited only
after attempts that fail by landing in the catch block (a thrown invocation or
an error result), never after the final attempt, and never after an attempt
that fails by returning an error-free null payload (which retries
immediately).  A run whose three attempts all land in the catch block spends
exactly 1s + 2s in backoff. -/
theorem c3_backoff_after_thrown_attempts :
    (∀ oc : Nat → AttemptOutcome,
      (∀ i, i < MAX_RETRY_ATTEMPTS → attemptThrows (oc i) = true) →
        simLoop oc = { simulationResult := none, attemptsStarted := 3, waits := [1000, 2000] }) ∧
    (∀ r : InvokeReturn, r.error = none →
      ∀ a, stepWait (AttemptOutcome.ret r) a = []) ∧
    backoff 0 = [1000] ∧ backoff 1 = [2000] ∧ backoff 2 = [] := by
  refine ⟨simLoop_allThrow, ?_, by decide, by decide, by decide⟩
  intro r hr a
  simp [stepWait, hr]

/-- C3 witness: the amended theorem evaluated on a run whose attempts all
throw. -/
theorem c3_witness :
    simLoop (fun _ => AttemptOutcome.exn) =
      { simulationResult := none, attemptsStarted := 3, waits := [1000, 2000] } ∧
    stepWait (AttemptOutcome.ret { data := none, error := none }) 0 = [] := by
  refine ⟨c3_backoff_after_thrown_attempts.1 (fun _ => AttemptOutcome.exn) (fun _ _ => rfl),
    c3_backoff_after_thrown_attempts.2.1 { data := none, error := none } rfl 0⟩

/-- C4, counterexample: with a cancellation token already triggered before
attempts 1 and 2 would begin (it fired during attempt 0, making every later
invocation reject immediately), the loop still begins all three attempts and
still sleeps both backoff delays — the claim says the client checks the token
before each retry and never begins another attempt once it has fired. -/
theorem c4_counterexample :
    tokenFiredAfterFirst 1 = true ∧ tokenFiredAfterFirst 2 = true ∧
    (simLoop (withToken tokenFiredAfterFirst fun _ => AttemptOutcome.exn)).attemptsStarted = 3 ∧
    (simLoop (withToken tokenFiredAfterFirst fun _ => AttemptOutcome.exn)).waits = [1000, 2000] := by
  decide

/-- C4 (amended): the loop never consults the token; once it has fired, every
invocation handed the aborted signal rejects immediately, but the client still
begins each remaining attempt (sleeping the backoff delays) until the three
attempts are exhausted, and then follows the unavailable path. -/
theorem c4_no_token_check (tokenFired : Nat → Bool) (oc : Nat → AttemptOutcome)
    (h : ∀ i, tokenFired i = true) :
    simLoop (withToken tokenFired oc) =
      { simulationResult := none, attemptsStarted := 3, waits := [1000, 2000] } := by
  apply simLoop_allThrow
  intro i _
  simp [withToken, h i, attemptThrows]

/-- C4 witness: the amended theorem evaluated with a token that has already
fired before every attempt. -/
theorem c4_witness :
    simLoop (withToken (fun _ => true) nullDataOutcome) =
      { simulationResult := none, attemptsStarted := 3, waits := [1000, 2000] } :=
  c4_no_token_check (fun _ => true) nullDataOutcome (fun _ => rfl)

/-- C2: on a run in which every simulation attempt is exhausted without a
usable simulated image, the pipeline does not raise past the simulation
boundary: it records the unavailable marker with warnings exactly
`['simulation_unavailable']`, sets the ideal image to the optimized smiling
image, and still completes the run (the contact step is reached and the
in-flight flag is cleared). -/
theorem c2_simulation_exhausted (env : Env) (s : RunState) (rest smile osm : String)
    (sw sh rwv rhv : ℚ)
    (hp : s.isProcessing = false)
    (hos : optimizeImage env.optSmile smile = Except.ok osm)
    (hsd : env.smileDims = some (sw, sh))
    (hrd : env.restDims = some (rwv, rhv))
    (hex : ∀ i, i < MAX_RETRY_ATTEMPTS → attemptBreaks (env.simOutcomes i) = none) :
    (handleCapture env s rest smile).1.simulationData =
      some { facialAnalysis := none, qualityScore := none,
             warnings := some ["simulation_unavailable"] } ∧
    (handleCapture env s rest smile).1.idealImage = osm ∧
    (handleCapture env s rest smile).1.step = Step.contact ∧
    (handleCapture env s rest smile).1.isProcessing = false := by
  have hnone := (simLoop_exhausted env.simOutcomes hex).1
  rw [handleCapture_eq env s rest smile hp,
      handleCaptureTry_done env _ rest smile osm sw sh rwv rhv hos hsd hrd]
  simp [postSim, simUnavailable, hnone]

/-- C2 witness: the theorem evaluated on an environment whose three attempts
all throw. -/
theorem c2_witness :
    (handleCapture baseEnv initialState "r" "s").1.simulationData =
      some { facialAnalysis := none, qualityScore := none,
             warnings := some ["simulation_unavailable"] } ∧
    (handleCapture baseEnv initialState "r" "s").1.idealImage = "enc" ∧
    (handleCapture baseEnv initialState "r" "s").1.step = Step.contact ∧
    (handleCapture baseEnv initialState "r" "s").1.isProcessing = false :=
  c2_simulation_exhausted baseEnv initialState "r" "s" "enc" 800 600 800 600 rfl rfl
    rfl rfl (fun _ _ => rfl)

/-- C5: a submission made while a run is already in flight is rejected
synchronously with a user-visible notice: the returned state is exactly the
input state (step, images, metrics, analysis, retry counter all unchanged)
and no run starts. -/
theorem c5_reentrancy_guard (env : Env) (s : RunState) (rest smile : String)
    (hp : s.isProcessing = true) :
    handleCapture env s rest smile = (s, [Notice.reentrancyWarning]) := by
  simp [handleCapture, handleCaptureWith, hp]

/-- C5 witness: the theorem evaluated on a state with the in-flight flag set. -/
theorem c5_witness :
    handleCapture baseEnv { initialState with isProcessing := true } "r" "s" =
      ({ initialState with isProcessing := true }, [Notice.reentrancyWarning]) :=
  c5_reentrancy_guard baseEnv { initialState with isProcessing := true } "r" "s" rfl

/-- C6: whenever landmarks are unavailable — the detector never initialized,
or the detection/metric stage threw — the run is not aborted (it still
reaches the contact step) and the metrics committed downstream equal the
literal fallback record (smile arc "consonante", gingival 1mm "media",
midline 0mm "centrado", buccal ratio 0.8, facial thirds 0.33/0.34/0.33
balanced); the records used on the two unavailability paths are identical. -/
theorem c6_fallback_metrics (env : Env) (s : RunState) (rest smile osm : String)
    (sw sh rwv rhv : ℚ)
    (hp : s.isProcessing = false)
    (hos : optimizeImage env.optSmile smile = Except.ok osm)
    (hsd : env.smileDims = some (sw, sh))
    (hrd : env.restDims = some (rwv, rhv))
    (hun : env.landmarkerAvailable = false ∨ ∃ a, env.detection = DetectStage.failed a) :
    (handleCapture env s rest smile).1.metrics = some fallbackMetricsOnError ∧
    (handleCapture env s rest smile).1.step = Step.contact ∧
    fallbackMetricsOnError = fallbackMetricsNoLandmarker ∧
    fallbackMetricsOnError =
      { smileArc := "consonante"
        gingival := { mm := 1, cls := "media" }
        midline := { mm := 0, side := "centrado" }
        buccalRatio := 0.8
        facialMidline := { mm := 0, side := "centrado" }
        midlineCoincidence := { deviation := 0, status := "coincidente" }
        facialProportions :=
          { upperThird := 0.33, middleThird := 0.34, lowerThird := 0.33,
            isBalanced := true } } := by
  have hstage : (landmarkStage env).2 = fallbackMetricsOnError := by
    rcases hun with hla | ⟨a, hd⟩
    · simp [landmarkStage, hla]
      rfl
    · by_cases hla : env.landmarkerAvailable
      · simp [landmarkStage, hla, hd]
      · simp [landmarkStage, hla]
        rfl
  rw [handleCapture_eq env s rest smile hp,
      handleCaptureTry_done env _ rest smile osm sw sh rwv rhv hos hsd hrd]
  exact ⟨by simp [hstage], by simp, rfl, rfl⟩

/-- C6 witness: the theorem evaluated on an environment without a landmarker
handle. -/
theorem c6_witness :
    (handleCapture baseEnv initialState "r" "s").1.metrics = some fallbackMetricsOnError ∧
    (handleCapture baseEnv initialState "r" "s").1.step = Step.contact ∧
    fallbackMetricsOnError = fallbackMetricsNoLandmarker ∧
    fallbackMetricsOnError =
      { smileArc := "consonante"
        gingival := { mm := 1, cls := "media" }
        midline := { mm := 0, side := "centrado" }
        buccalRatio := 0.8
        facialMidline := { mm := 0, side := "centrado" }
        midlineCoincidence := { deviation := 0, status := "coincidente" }
        facialProportions :=
          { upperThird := 0.33, middleThird := 0.34, lowerThird := 0.33,
            isBalanced := true } } :=
  c6_fallback_metrics baseEnv initialState "r" "s" "enc" 800 600 800 600 rfl rfl
    rfl rfl (Or.inl rfl)

/-- C7: `optimizeImage` never fails — its promise resolves for every input
and every environment — and on a decoding error or a missing canvas context
it resolves with the original input string unchanged. -/
theorem c7_optimize_never_fails (c : CanvasEnv) (b : String) :
    (∃ v, optimizeImage c b = Except.ok v) ∧
    (c.decode = DecodeOutcome.failure → optimizeImage c b = Except.ok b) ∧
    (c.ctxAvailable = false → optimizeImage c b = Except.ok b) := by
  refine ⟨optimizeImage_ok c b, ?_, ?_⟩
  · intro hd
    simp [optimizeImage, hd]
  · intro hc
    rcases hd : c.decode with _ | ⟨w, h⟩ <;> simp [optimizeImage, hd, hc]

/-- C7 witness: the theorem evaluated on a failing decode and on a missing
context. -/
theorem c7_witness :
    optimizeImage
      { decode := DecodeOutcome.failure, ctxAvailable := true, encode := fun _ _ _ => "enc" }
      "orig" = Except.ok "orig" ∧
    optimizeImage
      { decode := DecodeOutcome.success 100 100, ctxAvailable := false,
        encode := fun _ _ _ => "enc" }
      "orig" = Except.ok "orig" :=
  ⟨(c7_optimize_never_fails _ "orig").2.1 rfl, (c7_optimize_never_fails _ "orig").2.2 rfl⟩

/-- C8: evaluation of the code at the failing input.  A fresh photo pair is
submitted with the committed retry counter at 0 (so the submission closure
captured `retryCount = 0`), preprocessing fails fatally on every run, and the
user clicks the retry affordance after each failure.  Every rerun of the chain
is the submission-time closure, whose catch evaluates the captured
pre-increment counter (`0 < MAX_RETRY_ATTEMPTS - 1`), so the third
consecutive fatal failure STILL emits the retry affordance — not the terminal
failure notice the claim (and the spec's stated cap of 3) requires — a 4th
retry is offered and, when clicked, runs and offers a 5th, while the
committed counter (which nothing in the chain reads) keeps growing. -/
theorem c8_bug_evaluation :
    (handleCapture fatalEnv initialState "r" "s").2 = [Notice.errorRetry] ∧
    (clickRetry fatalEnv 0 (handleCapture fatalEnv initialState "r" "s").1 "r" "s").2 =
      [Notice.errorRetry] ∧
    (clickRetry fatalEnv 0
        (clickRetry fatalEnv 0 (handleCapture fatalEnv initialState "r" "s").1 "r" "s").1
        "r" "s").2 = [Notice.errorRetry] ∧
    (clickRetry fatalEnv 0
        (clickRetry fatalEnv 0
          (clickRetry fatalEnv 0 (handleCapture fatalEnv initialState "r" "s").1 "r" "s").1
          "r" "s").1 "r" "s").2 = [Notice.errorRetry] ∧
    (clickRetry fatalEnv 0
        (clickRetry fatalEnv 0
          (clickRetry fatalEnv 0 (handleCapture fatalEnv initialState "r" "s").1 "r" "s").1
          "r" "s").1 "r" "s").1.retryCount = 3 := by
  decide

/-- C9: when the simulation loop yields a usable payload, the exposed smiling
image is overwritten with the simulated image returned by the service, the
success payload's analysis fields are recorded, and when the payload lacks an
`idealImage` field the ideal image is set to the simulated image itself. -/
theorem c9_success_overwrites (env : Env) (s : RunState) (rest smile osm : String)
    (sw sh rwv rhv : ℚ) (resp : SimResponse) (simg : String)
    (hp : s.isProcessing = false)
    (hos : optimizeImage env.optSmile smile = Except.ok osm)
    (hsd : env.smileDims = some (sw, sh))
    (hrd : env.restDims = some (rwv, rhv))
    (hres : (simLoop env.simOutcomes).simulationResult = some resp)
    (hsimg : resp.simulatedImage = some simg)
    (hne : simg ≠ "") :
    (handleCapture env s rest smile).1.smileImage = simg ∧
    (resp.idealImage = none → (handleCapture env s rest smile).1.idealImage = simg) ∧
    (handleCapture env s rest smile).1.simulationData =
      some { facialAnalysis := resp.facialAnalysis, qualityScore := resp.qualityScore,
             warnings := resp.warnings } ∧
    (handleCapture env s rest smile).1.step = Step.contact := by
  rw [handleCapture_eq env s rest smile hp,
      handleCaptureTry_done env _ rest smile osm sw sh rwv rhv hos hsd hrd]
  refine ⟨?_, ?_, ?_, ?_⟩
  · simp [postSim, hres, hsimg, hne]
  · intro hid
    simp [postSim, hres, hsimg, hne, jsOr, hid]
  · simp [postSim, hres, hsimg, hne]
  · simp

/-- C9 witness: the theorem evaluated on an environment whose first attempt
returns a payload with a simulated image and no ideal image. -/
theorem c9_witness :
    (handleCapture successEnv initialState "r" "s").1.smileImage = "sim" ∧
    (handleCapture successEnv initialState "r" "s").1.idealImage = "sim" ∧
    (handleCapture successEnv initialState "r" "s").1.simulationData =
      some { facialAnalysis := none, qualityScore := none, warnings := some ["w1"] } ∧
    (handleCapture successEnv initialState "r" "s").1.step = Step.contact :=
  have h := c9_success_overwrites successEnv initialState "r" "s" "enc" 800 600 800 600
    successPayload "sim" rfl rfl rfl rfl (by decide) rfl (by decide)
  ⟨h.1, h.2.1 rfl, h.2.2.1, h.2.2.2⟩

/-- C10: the run-level retry counter is reset to 0 only by the explicit
reset: a `handleCapture` run never changes it (whether it completes, fails
with the cap reached, is a fresh submission of a new photo pair, or is
rejected by the guard), the retry affordance increments it, the contact-form
submission leaves it alone, and `resetApplication` alone sets it back to 0 —
so the budget is consumed globally across distinct photo pairs and failure
causes until a full reset. -/
theorem c10_retry_counter_global :
    (∀ env s rest smile, ((handleCapture env s rest smile).1).retryCount = s.retryCount) ∧
    (∀ env captured s rest smile,
      ((clickRetry env captured s rest smile).1).retryCount = s.retryCount + 1) ∧
    (∀ s d, (handleContactSubmit s d).retryCount = s.retryCount) ∧
    (∀ s, (resetApplication s).retryCount = 0) := by
  refine ⟨handleCapture_retryCount, ?_, ?_, ?_⟩
  · intro env captured s rest smile
    simpa [clickRetry] using
      handleCaptureWith_retryCount env captured
        { s with retryCount := s.retryCount + 1 } rest smile
  · intro s d
    rfl
  · intro s
    rfl

end SimSmile
